import Mathlib

/-!
Verification of the amcat4 query/result pipeline and role-gated API endpoints.

Shallow embedding of:
  * `amcat4/query.py` — `build_body` (with its inner `parse_filter`, `parse_query`,
    `parse_queries`), `QueryResult`, `query_documents`, `query_annotations`,
    `extract_highlight_span`;
  * `amcat4/api/users.py` — `create_user`;
  * `amcat4/api/index.py` — `add_index_users`, `get_fields`, `get_values`, `refresh_index`;
  * `amcat4/api/common.py` — `check_role`.

Python dicts are modelled as association lists with unique keys (insertion order
preserved, as Python guarantees); `dict.pop(k)` is modelled by filtering out the key.
Python exceptions are modelled by `Except PyErr`.  The Elasticsearch backend is an
external collaborator and is passed in as a record of functions.
-/

/-- Primitive (scalar) JSON-ish values used in filter specs and documents. -/
inductive Prim where
  | str (s : String)
  | int (n : Int)
  deriving DecidableEq

/-- A value in a filter spec: either a scalar or a (one-level) list of scalars. -/
inductive FVal where
  | prim (p : Prim)
  | arr (l : List Prim)
  deriving DecidableEq

/-- A per-field filter spec: the Python dict `{"value": .., "values": [..], "gte": .., ...}`. -/
def FilterSpec := List (String × FVal)
deriving DecidableEq

/-- The outer filters mapping `{field: spec, ...}`. -/
def Filters := List (String × FilterSpec)
deriving DecidableEq

/-- The `queries` argument of `build_body`: `query_documents` passes a dict
`{label: query}`, while `query_annotations` passes a Python *list* `[query]`.
Both are modelled so that the dynamic-typing behaviour of `parse_queries` is kept. -/
inductive QArg where
  | dict (d : List (String × String))
  | list (l : List String)
  deriving DecidableEq

/-- Compiled Elasticsearch query clauses, mirroring the dict shapes that
`build_body` constructs: `{"term": {field: v}}`, `{"range": {field: bounds}}`,
`{"bool": {"should": [...]}}` and `{"query_string": {"query": q}}`. -/
inductive Clause where
  | term (field : String) (value : FVal)
  | range (field : String) (bounds : List (String × FVal))
  | boolShould (clauses : List Clause)
  | queryString (q : String)

/-- The top-level `query` entry of the body: `{"match_all": {}}` or
`{"bool": {"filter": [...]}}`. -/
inductive Query where
  | matchAll
  | boolFilter (fs : List Clause)

/-- The compiled body.  The `highlight` entry of the Python dict is a fixed constant
(`{"type": "plain", "fields": {"*": {"number_of_fragments": 0}}}`), so its presence is
modelled as a boolean flag. -/
structure Body where
  query : Query
  highlight : Bool

/-- Python exceptions that the embedded code can raise. -/
inductive PyErr where
  | typeError (msg : String)
  | attributeError (msg : String)
  | valueError (msg : String)
  | keyError (key : String)
  | indexError (msg : String)
  | zeroDivisionError
  deriving DecidableEq

/-- Look up a key in a Python dict modelled as an association list. -/
def lookupSpec (spec : List (String × FVal)) (k : String) : Option FVal :=
  (spec.find? (fun kv => kv.1 == k)).map (fun kv => kv.2)

/-- `dict.pop(k, default)`: return the binding (if any) and the dict without the key.
Python dict keys are unique, so removing the key is filtering it out. -/
def popKey (spec : List (String × FVal)) (k : String) :
    Option FVal × List (String × FVal) :=
  (lookupSpec spec k, spec.filter (fun kv => !(kv.1 == k)))

/-- Python iteration `for value in v`: a list iterates its elements, a string iterates
its characters (each a one-character string), an int raises `TypeError`. -/
def pyIter : FVal → Except PyErr (List FVal)
  | FVal.arr l => Except.ok (l.map FVal.prim)
  | FVal.prim (Prim.str s) => Except.ok (s.data.map (fun c => FVal.prim (Prim.str (String.singleton c))))
  | FVal.prim (Prim.int _) => Except.error (PyErr.typeError "int object is not iterable")

/-- The loop `for rangevar in ['gt', 'gte', 'lt', 'lte']: if rangevar in filter:
rangefilter[rangevar] = filter.pop(rangevar)`, threading the mutated spec.
(Popping an absent key leaves the dict unchanged, so the pop is unconditional.) -/
def popRangeAux : List String → List (String × FVal) →
    List (String × FVal) × List (String × FVal)
  | [], s => ([], s)
  | k :: ks, s =>
    let p := popKey s k
    let rest := popRangeAux ks p.2
    ((match p.1 with
      | some v => [(k, v)]
      | none => []) ++ rest.1, rest.2)

/-- `parse_filter(field, filter)` from `build_body` (amcat4/query.py).  Returns the
compiled per-field clause (or the raised exception) together with the final state of
the (mutated) filter-spec dict. -/
def parse_filter (field : String) (filter : List (String × FVal)) :
    Except PyErr Clause × List (String × FVal) :=
  let pv := popKey filter "values"
  match pyIter (pv.1.getD (FVal.arr [])) with
  | Except.error e => (Except.error e, pv.2)
  | Except.ok vlist =>
    let valuesTerms := vlist.map (fun v => Clause.term field v)
    let p1 := popKey pv.2 "value"
    let withValue := valuesTerms ++
      (match p1.1 with
       | some v => [Clause.term field v]
       | none => [])
    let pr := popRangeAux ["gt", "gte", "lt", "lte"] p1.2
    let field_filters := withValue ++
      (if pr.1.isEmpty then [] else [Clause.range field pr.1])
    if pr.2.isEmpty then (Except.ok (Clause.boolShould field_filters), pr.2)
    else (Except.error (PyErr.valueError "Unknown filter type(s)"), pr.2)

/-- `parse_query(q)` from `build_body`. -/
def parse_query (q : String) : Clause :=
  Clause.queryString q

/-- `parse_queries(qs)` from `build_body`.  `qs.values()` exists only on dicts; on a
Python list it raises `AttributeError` (this is what `query_annotations` triggers). -/
def parse_queries : QArg → Except PyErr Clause
  | QArg.list _ => Except.error (PyErr.attributeError "list object has no attribute values")
  | QArg.dict d =>
    match d with
    | [kv] => Except.ok (parse_query kv.2)
    | _ => Except.ok (Clause.boolShould (d.map (fun kv => parse_query kv.2)))

/-- Python truthiness of the `queries` argument. -/
def qTruthy : Option QArg → Bool
  | none => false
  | some (QArg.dict d) => !d.isEmpty
  | some (QArg.list l) => !l.isEmpty

/-- Python truthiness of the `filters` argument. -/
def fTruthy : Option Filters → Bool
  | none => false
  | some l => !(List.isEmpty l)

/-- The comprehension `[parse_filter(*item) for item in filters.items()]`, threading
the in-place mutation of each per-field spec dict.  An exception aborts the
comprehension: earlier specs stay mutated, later specs stay untouched. -/
def parseFilters : List (String × FilterSpec) →
    Except PyErr (List Clause) × List (String × FilterSpec)
  | [] => (Except.ok [], [])
  | (field, spec) :: rest =>
    match parse_filter field spec with
    | (Except.error e, spec') => (Except.error e, (field, spec') :: rest)
    | (Except.ok c, spec') =>
      match parseFilters rest with
      | (Except.error e, rest') => (Except.error e, (field, spec') :: rest')
      | (Except.ok cs, rest') => (Except.ok (c :: cs), (field, spec') :: rest')

/-- `build_body(queries, filters, highlight)` (amcat4/query.py).  The second component
is the final state of the `filters` argument, whose per-field dicts the Python code
mutates in place via `pop`. -/
def build_body (queries : Option QArg) (filters : Option Filters) (highlight : Bool) :
    Except PyErr Body × Option Filters :=
  if !(qTruthy queries) && !(fTruthy filters) then
    (Except.ok { query := Query.matchAll, highlight := false }, filters)
  else
    let pf : Except PyErr (List Clause) × Option Filters :=
      match filters with
      | none => (Except.ok [], none)
      | some fl =>
        if List.isEmpty fl then (Except.ok [], some fl)
        else
          let r := parseFilters fl
          (r.1, some r.2)
    match pf.1 with
    | Except.error e => (Except.error e, pf.2)
    | Except.ok fs0 =>
      if qTruthy queries then
        match parse_queries (queries.getD (QArg.dict [])) with
        | Except.error e => (Except.error e, pf.2)
        | Except.ok qc =>
          (Except.ok { query := Query.boolFilter (fs0 ++ [qc]), highlight := highlight }, pf.2)
      else
        (Except.ok { query := Query.boolFilter fs0, highlight := highlight }, pf.2)

example :
    (build_body none none false).1 =
      Except.ok { query := Query.matchAll, highlight := false } := rfl

example :
    (parse_filter "f" [("values", FVal.arr [Prim.int 1, Prim.int 2]),
                       ("gte", FVal.prim (Prim.int 5))]).1 =
      Except.ok (Clause.boolShould
        [Clause.term "f" (FVal.prim (Prim.int 1)),
         Clause.term "f" (FVal.prim (Prim.int 2)),
         Clause.range "f" [("gte", FVal.prim (Prim.int 5))]]) := rfl

example :
    (parse_filter "f" [("foo", FVal.prim (Prim.int 1))]).1 =
      Except.error (PyErr.valueError "Unknown filter type(s)") := rfl

/-! ## Highlight-span extraction (`extract_highlight_span`) -/

/-- Does `pat` occur as the initial segment of `rest`? -/
def matchesHere : List Char → List Char → Bool
  | [], _ => true
  | _ :: _, [] => false
  | p :: ps, c :: cs => p == c && matchesHere ps cs

/-- The literal characters of the opening highlight marker. -/
def litOpenEm : List Char := ['<', 'e', 'm', '>']

/-- The literal characters of the closing highlight marker. -/
def litCloseEm : List Char := ['<', '/', 'e', 'm', '>']

/-- No newline among positions `[a, b)` of `s` (regex `.` does not match newline). -/
def noNewlineBetween (s : List Char) (a b : Nat) : Bool :=
  ((s.drop a).take (b - a)).all (fun c => !(c == '\n'))

/-- Candidate start positions `j` of the closing marker for a match of the Python
regex `<em>.+</em>` whose opening marker sits at `p`: the `.+` part spans `[p+4, j)`,
must be nonempty and newline-free, and `</em>` must occur at `j`. -/
def closeCandidates (s : List Char) (p : Nat) : List Nat :=
  (List.range (s.length + 1)).filter (fun j =>
    decide (p + 5 ≤ j) && matchesHere litCloseEm (s.drop j) && noNewlineBetween s (p + 4) j)

/-- Greedy match of `<em>.+</em>` at position `p`: `.+` is greedy, so the closing
marker chosen is the *last* viable one; returns the end position of the match. -/
def matchAtPos (s : List Char) (p : Nat) : Option Nat :=
  if matchesHere litOpenEm (s.drop p) then
    (closeCandidates s p).getLast?.map (fun j => j + 5)
  else none

/-- `re.finditer` over the whole string: scan left to right, emit each
(non-overlapping, leftmost, greedy) match as (start, length), resume after it. -/
def findMatchesAux (s : List Char) : Nat → Nat → List (Nat × Nat)
  | 0, _ => []
  | Nat.succ fuel, p =>
    match matchAtPos s p with
    | some e => (p, e - p) :: findMatchesAux s fuel e
    | none => if s.length ≤ p then [] else findMatchesAux s fuel (p + 1)

/-- `extract_highlight_span(highlight)` (amcat4/query.py): for the `i`-th match of
`<em>.+</em>` yield `offset = m.start - 9*i` and `length = len(m.group(0)) - 9`
(`tagsize = 9`, the combined length of the two markers). -/
def extract_highlight_span (highlight : String) : List (Int × Int) :=
  let ms := findMatchesAux highlight.data (highlight.data.length + 1) 0
  ms.enum.map (fun ie => ((ie.2.1 : Int) - 9 * (ie.1 : Int), (ie.2.2 : Int) - 9))

example : extract_highlight_span "The <em>cat</em> sat" = [(4, 3)] := by decide

/-! ## The Elasticsearch backend contract -/

/-- `result['hits']['total']` in ES7 form: a dict `{"value": n, ...}`. -/
structure ESTotal where
  value : Nat
  deriving DecidableEq

/-- One raw hit: `_id`, `_source` mapping, and the optional `highlight` mapping
(field name to list of fragments). -/
structure ESHit where
  id : String
  source : List (String × Prim)
  highlight : Option (List (String × List String))
  deriving DecidableEq

/-- A search/scroll response. `scroll_id` models the optional `_scroll_id` key. -/
structure ESResult where
  hits : List ESHit
  total : ESTotal
  scroll_id : Option String
  deriving DecidableEq

/-- Arguments of an `es.search(...)` call. `size`, `from_`, `scroll`, `_source` are
keyword arguments that may be absent. -/
structure SearchReq where
  index : String
  body : Body
  size : Option Nat
  from_ : Option Nat
  scroll : Option String
  source : Option (List String)

/-- Arguments of an `es.scroll(...)` call. -/
structure ScrollCall where
  scroll_id : String
  scroll : Option String

/-- The external search engine, consumed through its search/scroll contract. -/
structure Backend where
  search : SearchReq → ESResult
  scroll : ScrollCall → ESResult

/-! ## `query_annotations` -/

/-- One extracted annotation record.  The Python dict key `variable` is a Lean
keyword, so the field is named `var`. -/
structure Ann where
  offset : Int
  length : Int
  var : String
  value : String
  field : String
  deriving DecidableEq

/-- Spans of the first fragment of one highlighted field (`highlights[0]`);
an empty fragment list raises `IndexError`. -/
def annFieldSpans (q : String) (field : String) (highlights : List String) :
    Except PyErr (List Ann) :=
  match highlights with
  | [] => Except.error (PyErr.indexError "list index out of range")
  | h :: _ =>
    Except.ok ((extract_highlight_span h).map (fun sp =>
      { offset := sp.1, length := sp.2, var := "lucene_query", value := q, field := field }))

/-- The `for field, highlights in hit['highlight'].items()` loop, appending spans. -/
def annAccumFields (q : String) :
    List (String × List String) → List Ann → Except PyErr (List Ann)
  | [], acc => Except.ok acc
  | (field, hs) :: rest, acc =>
    match annFieldSpans q field hs with
    | Except.error e => Except.error e
    | Except.ok spans => annAccumFields q rest (acc ++ spans)

/-- The `for query in queries` loop of `query_annotations`.  The Python `return
annotations` sits *inside* the loop body, so the first iteration returns and any
remaining queries are never processed; an exhausted loop (no iterations) falls off
the end of the function, returning Python `None`. -/
def annLoop (backend : Backend) (index : String) (id : String) :
    List String → List Ann → Except PyErr (Option (List Ann))
  | [], _ => Except.ok none
  | q :: _, acc =>
    match (build_body (some (QArg.list [q]))
            (some [("_id", [("value", FVal.prim (Prim.str id))])]) true).1 with
    | Except.error e => Except.error e
    | Except.ok body =>
      let result := backend.search ⟨index, body, none, none, none, none⟩
      match result.hits with
      | [] => Except.error (PyErr.indexError "list index out of range")
      | hit :: _ =>
        match hit.highlight with
        | none => Except.error (PyErr.keyError "highlight")
        | some hl =>
          match annAccumFields q hl acc with
          | Except.error e => Except.error e
          | Except.ok anns => Except.ok (some anns)

/-- `query_annotations(index, id, queries)` (amcat4/query.py).  `query_documents`
passes it the (already dict-normalised) `queries` value, so iterating a dict yields
its keys (the labels); iterating `None` raises `TypeError`. -/
def query_annotations (backend : Backend) (index : String) (id : String)
    (queries : Option QArg) : Except PyErr (Option (List Ann)) :=
  match queries with
  | none => Except.error (PyErr.typeError "NoneType object is not iterable")
  | some (QArg.dict d) => annLoop backend index id (d.map (fun kv => kv.1)) []
  | some (QArg.list l) => annLoop backend index id l []

/-! ## Hit post-processing and `QueryResult` -/

/-- A value stored in a hit dict: a document value, or the `_annotations` entry. -/
inductive HVal where
  | prim (p : Prim)
  | anns (a : Option (List Ann))
  deriving DecidableEq

/-- The per-hit result dict built by the `for hit in result['hits']['hits']` loop. -/
def HitDict := List (String × HVal)
deriving DecidableEq

/-- Python `d[k] = v`: overwrite in place if the key exists, else append. -/
def setKey (d : List (String × HVal)) (k : String) (v : HVal) : List (String × HVal) :=
  if d.any (fun kv => kv.1 == k) then
    d.map (fun kv => if kv.1 == k then (k, v) else kv)
  else d ++ [(k, v)]

/-- `dict(_id=hit['_id'], **hit['_source'])` (a `_source` never itself carrying
an `_id` key, as Elasticsearch guarantees). -/
def hitBase (hit : ESHit) : List (String × HVal) :=
  ("_id", HVal.prim (Prim.str hit.id)) :: hit.source.map (fun kv => (kv.1, HVal.prim kv.2))

/-- The highlight-override loop: for each highlighted field with a nonempty fragment
list, replace the field value by the first fragment. -/
def applyHighlight (hit : ESHit) (d : List (String × HVal)) : List (String × HVal) :=
  match hit.highlight with
  | none => d
  | some hl =>
    hl.foldl (fun acc kv =>
      match kv.2 with
      | [] => acc
      | f :: _ => setKey acc kv.1 (HVal.prim (Prim.str f))) d

/-- Processing of a single hit inside `query_documents`: build the base dict, add
`_annotations` when requested (which may raise), then apply highlight overrides. -/
def processHit (backend : Backend) (index : String) (queries : Option QArg)
    (annotations : Bool) (hit : ESHit) : Except PyErr HitDict :=
  if annotations then
    match query_annotations backend index hit.id queries with
    | Except.error e => Except.error e
    | Except.ok a =>
      Except.ok (applyHighlight hit (setKey (hitBase hit) "_annotations" (HVal.anns a)))
  else
    Except.ok (applyHighlight hit (hitBase hit))

/-- The whole `for hit in result['hits']['hits']` loop. -/
def processHits (backend : Backend) (index : String) (queries : Option QArg)
    (annotations : Bool) : List ESHit → Except PyErr (List HitDict)
  | [] => Except.ok []
  | h :: rest =>
    match processHit backend index queries annotations h with
    | Except.error e => Except.error e
    | Except.ok d =>
      match processHits backend index queries annotations rest with
      | Except.error e => Except.error e
      | Except.ok ds => Except.ok (d :: ds)

/-- The `QueryResult` object (amcat4/query.py). -/
structure QueryResult where
  data : List HitDict
  total_count : Option ESTotal
  page : Option Nat
  page_count : Option Nat
  per_page : Option Nat
  scroll_id : Option String
  deriving DecidableEq

/-- Exact ceiling division on naturals; `QueryResult.__init__` computes
`ceil(n["value"] / per_page)` with Python float division, which agrees with the
exact ceiling for all realistic magnitudes. -/
def ceilNat (a b : Nat) : Nat := (a + b - 1) / b

/-- `QueryResult.__init__(data, n, per_page, page, page_count, scroll_id)`:
when `n` is given (a nonempty, hence truthy, dict) and `page_count` is `None`,
compute `page_count = ceil(n["value"] / per_page)`; division by a `None` `per_page`
raises `TypeError` and by zero raises `ZeroDivisionError`. -/
def queryResultInit (data : List HitDict) (n : Option ESTotal) (per_page : Option Nat)
    (page : Option Nat) (page_count : Option Nat) (scroll_id : Option String) :
    Except PyErr QueryResult :=
  match n, page_count with
  | some t, none =>
    match per_page with
    | none => Except.error (PyErr.typeError "unsupported operand type for division")
    | some pp =>
      if pp == 0 then Except.error PyErr.zeroDivisionError
      else Except.ok ⟨data, some t, page, some (ceilNat t.value pp), some pp, scroll_id⟩
  | _, _ => Except.ok ⟨data, n, page, page_count, per_page, scroll_id⟩

/-- A value of the serialized `meta` dict of `QueryResult.as_dict`. -/
inductive MetaVal where
  | null
  | nat (n : Nat)
  | total (t : ESTotal)
  | str (s : String)
  deriving DecidableEq

/-- Meta entry for an optional number. -/
def optNatMeta : Option Nat → MetaVal
  | none => MetaVal.null
  | some n => MetaVal.nat n

/-- Meta entry for the optional total-count dict. -/
def optTotalMeta : Option ESTotal → MetaVal
  | none => MetaVal.null
  | some t => MetaVal.total t

/-- `QueryResult.as_dict()`: meta always carries total_count/per_page/page_count;
then `scroll_id` if truthy, else `page`. -/
def as_dict (qr : QueryResult) : List (String × MetaVal) × List HitDict :=
  let meta := [("total_count", optTotalMeta qr.total_count),
               ("per_page", optNatMeta qr.per_page),
               ("page_count", optNatMeta qr.page_count)]
  let meta :=
    match qr.scroll_id with
    | some s =>
      if s == "" then meta ++ [("page", optNatMeta qr.page)]
      else meta ++ [("scroll_id", MetaVal.str s)]
    | none => meta ++ [("page", optNatMeta qr.page)]
  (meta, qr.data)

/-! ## `query_documents` -/

/-- The `scroll` parameter: a keep-alive string, or `True` for the default. -/
inductive ScrollVal where
  | bool (b : Bool)
  | str (s : String)
  deriving DecidableEq

/-- Python truthiness of the `scroll` parameter. -/
def scrollTruthy : Option ScrollVal → Bool
  | none => false
  | some (ScrollVal.bool b) => b
  | some (ScrollVal.str s) => !(s == "")

/-- Python truthiness of the `scroll_id` parameter. -/
def scrollIdTruthy : Option String → Bool
  | none => false
  | some s => !(s == "")

/-- `if scroll or scroll_id: kwargs['scroll'] = '2m' if (not scroll or scroll is True)
else scroll`. -/
def scrollKwarg (scroll : Option ScrollVal) (scroll_id : Option String) : Option String :=
  if scrollTruthy scroll || scrollIdTruthy scroll_id then
    some (match scroll with
      | some (ScrollVal.str s) => if s == "" then "2m" else s
      | _ => "2m")
  else none

/-- `{q: q for q in queries}`: a dict comprehension keeps the first occurrence of
each key (later duplicates only overwrite the — identical — value). -/
def pyDictOfList (l : List String) : List (String × String) :=
  l.foldl (fun acc q =>
    if acc.any (fun kv => kv.1 == q) then acc else acc ++ [(q, q)]) []

/-- `if queries and not isinstance(queries, dict): queries = {q: q for q in queries}`. -/
def normQueries : Option QArg → Option QArg
  | some (QArg.list l) =>
    if l.isEmpty then some (QArg.list l) else some (QArg.dict (pyDictOfList l))
  | q => q

/-- `query_documents(index, queries, page, per_page, scroll, scroll_id, fields,
filters, highlight, annotations)` (amcat4/query.py), with the backend passed
explicitly.  Returns `none` for the scroll-exhausted sentinel (Python `None`). -/
def query_documents (backend : Backend) (index : String) (queries0 : Option QArg)
    (page : Nat) (per_page : Nat) (scroll : Option ScrollVal) (scroll_id : Option String)
    (fields : Option (List String)) (filters : Option Filters)
    (highlight : Bool) (annotations : Bool) : Except PyErr (Option QueryResult) :=
  let kwScroll := scrollKwarg scroll scroll_id
  let queries := normQueries queries0
  if scrollIdTruthy scroll_id then
    let result := backend.scroll ⟨scroll_id.getD "", kwScroll⟩
    if result.hits.isEmpty then Except.ok none
    else
      match processHits backend index queries annotations result.hits with
      | Except.error e => Except.error e
      | Except.ok data =>
        match queryResultInit data none none none none scroll_id with
        | Except.error e => Except.error e
        | Except.ok qr => Except.ok (some qr)
  else
    match (build_body queries filters highlight).1 with
    | Except.error e => Except.error e
    | Except.ok body =>
      let from_ := if scrollTruthy scroll then none else some (page * per_page)
      let result := backend.search ⟨index, body, some per_page, from_, kwScroll, fields⟩
      match processHits backend index queries annotations result.hits with
      | Except.error e => Except.error e
      | Except.ok data =>
        if scrollTruthy scroll then
          match result.scroll_id with
          | none => Except.error (PyErr.keyError "_scroll_id")
          | some rsid =>
            match queryResultInit data (some result.total) (some per_page) none none (some rsid) with
            | Except.error e => Except.error e
            | Except.ok qr => Except.ok (some qr)
        else
          match queryResultInit data (some result.total) (some per_page) (some page) none none with
          | Except.error e => Except.error e
          | Except.ok qr => Except.ok (some qr)

/-! ## Role model and access control

`amcat4/auth.py` (the `Role` enum and `User.has_role`) and `amcat4/index.py`
(`Index.has_role`) are not under src/ — only their callers are — so they are
modelled from the spec (section 4.1). -/

/-- Modelled from the spec: the ordered role enumeration of `amcat4/auth.py` (not
under src/): "READER(1) < METAREADER(2) < WRITER(3) < ADMIN(4)". -/
inductive Role where
  | READER
  | METAREADER
  | WRITER
  | ADMIN
  deriving DecidableEq

/-- The numeric value of a role (only the order matters). -/
def roleVal : Role → Nat
  | Role.READER => 1
  | Role.METAREADER => 2
  | Role.WRITER => 3
  | Role.ADMIN => 4

/-- Role comparison `a ≤ b` via the total order. -/
def roleLe (a b : Role) : Bool :=
  decide (roleVal a ≤ roleVal b)

/-- `s.upper()`, character by character. -/
def pyUpper (s : String) : String := String.mk (s.data.map Char.toUpper)

/-- `Role[s.upper()]`: parse a role name case-insensitively; unknown names are a
`KeyError` (returned as `none`). -/
def parseRoleUpper (s : String) : Option Role :=
  if pyUpper s == "READER" then some Role.READER
  else if pyUpper s == "METAREADER" then some Role.METAREADER
  else if pyUpper s == "WRITER" then some Role.WRITER
  else if pyUpper s == "ADMIN" then some Role.ADMIN
  else none

/-- `Role[s]`: exact-name lookup in the enum (member names are upper case), as used
by `add_index_users`; a lowercase name is a `KeyError` (returned as `none`). -/
def parseRoleExact (s : String) : Option Role :=
  if s == "READER" then some Role.READER
  else if s == "METAREADER" then some Role.METAREADER
  else if s == "WRITER" then some Role.WRITER
  else if s == "ADMIN" then some Role.ADMIN
  else none

/-- An authenticated principal: identity plus optional global role. -/
structure User where
  email : String
  global_role : Option Role
  deriving DecidableEq

/-- An index record: unique name plus optional guest role. -/
structure IndexRec where
  name : String
  guest_role : Option Role
  deriving DecidableEq

/-- The explicit (user, index) → role assignments of the metadata store. -/
def RoleState := List (String × String × Role)
deriving DecidableEq

/-- The explicit index-role assignment of a user on an index, if any. -/
def explicitIndexRole (st : RoleState) (email ixName : String) : Option Role :=
  ((st : List (String × String × Role)).find?
    (fun t => t.1 == email && t.2.1 == ixName)).map (fun t => t.2.2)

/-- Maximum of two optional roles ("none" is the implicit minimum). -/
def oRoleMax : Option Role → Option Role → Option Role
  | none, b => b
  | some a, none => some a
  | some a, some b => some (if roleLe a b then b else a)

/-- Modelled from the spec: `User.has_role` of `amcat4/auth.py` (not under src/):
the global check "succeeds iff principal's global role ≥ required_role". -/
def user_has_role (u : User) (r : Role) : Bool :=
  match u.global_role with
  | none => false
  | some g => roleLe r g

/-- Modelled from the spec: the effective index-scoped role of `amcat4/index.py`
(not under src/): "max(explicit index-role assignment, index guest-role, and — a
global ADMIN always satisfies any index-scoped check)". -/
def effective_role (st : RoleState) (u : User) (ix : IndexRec) : Option Role :=
  oRoleMax (oRoleMax (explicitIndexRole st u.email ix.name) ix.guest_role)
    (if u.global_role = some Role.ADMIN then some Role.ADMIN else none)

/-- Modelled from the spec: `Index.has_role` of `amcat4/index.py` (not under src/):
the index-scoped check "succeeds iff effective role ≥ required_role". -/
def index_has_role (st : RoleState) (u : User) (ix : IndexRec) (r : Role) : Bool :=
  match effective_role st u ix with
  | none => false
  | some e => roleLe r e

/-- Errors surfaced by the API endpoints. -/
inductive ApiErr where
  | unauthorized (msg : String)
  | notFound (msg : String)
  | keyError (key : String)
  deriving DecidableEq

/-- `check_role(role, ix=None)` (amcat4/api/common.py, the Flask variant used by
`create_user`): no principal raises Unauthorized; an index makes the check
index-scoped, otherwise it is global. -/
def check_role (st : RoleState) (u : Option User) (role : Role) (ix : Option IndexRec) :
    Except ApiErr Unit :=
  match u with
  | none => Except.error (ApiErr.unauthorized "No authenticated user")
  | some u' =>
    match ix with
    | some i =>
      if index_has_role st u' i role then Except.ok ()
      else Except.error (ApiErr.unauthorized "User does not have role on index")
    | none =>
      if user_has_role u' role then Except.ok ()
      else Except.error (ApiErr.unauthorized "User does not have role")

/-- Modelled from the spec: `check_role(user, role, index)` of `amcat4/api/auth.py`
(not under src/), the FastAPI variant used by `add_index_users`: index-scoped
authorize, Unauthorized when the effective role is insufficient. -/
def check_role_fast (st : RoleState) (u : User) (role : Role) (ix : IndexRec) :
    Except ApiErr Unit :=
  if index_has_role st u ix role then Except.ok ()
  else Except.error (ApiErr.unauthorized "User does not have role on index")

/-- Non-error responses of `create_user` (`bad_request` is returned, not raised). -/
inductive UserResp where
  | created (email : String)
  | badRequest (msg : String)
  deriving DecidableEq

/-- `create_user()` (amcat4/api/users.py): requires WRITER globally; duplicate email
is a 400; a requested global role is parsed case-insensitively, ADMIN requires the
actor to hold global ADMIN, and anything other than ADMIN/WRITER is a 400. -/
def create_user (st : RoleState) (current_user : Option User) (existing : List String)
    (email : String) (_password : String) (global_role : Option String) :
    Except ApiErr UserResp :=
  match check_role st current_user Role.WRITER none with
  | Except.error e => Except.error e
  | Except.ok _ =>
    if existing.contains email then
      Except.ok (UserResp.badRequest "User already exists")
    else
      match global_role with
      | none => Except.ok (UserResp.created email)
      | some rs =>
        if rs == "" then Except.ok (UserResp.created email)
        else
          match parseRoleUpper rs with
          | none => Except.error (ApiErr.keyError rs)
          | some r =>
            if r == Role.ADMIN then
              match check_role st current_user Role.ADMIN none with
              | Except.error e => Except.error e
              | Except.ok _ => Except.ok (UserResp.created email)
            else if !(r == Role.WRITER) then
              Except.ok (UserResp.badRequest
                "Global role should be ADMIN (superuser) or WRITER (staff/maintainer)")
            else Except.ok (UserResp.created email)

/-- Response of `add_index_users`. -/
inductive IndexUserResp where
  | added (email ixName : String) (role : Role)
  deriving DecidableEq

/-- `add_index_users()` (amcat4/api/index.py): look up the index (404 if absent,
via `_index`, modelled from the spec), parse the role exactly, skip the role check
for global ADMINs, otherwise require ADMIN on the index when granting ADMIN and
WRITER when granting anything else, then look up the target user (404 if absent). -/
def add_index_users (st : RoleState) (indices : List IndexRec) (users : List User)
    (ixName : String) (email : String) (role : String) (user : User) :
    Except ApiErr IndexUserResp :=
  match indices.find? (fun i => i.name == ixName) with
  | none => Except.error (ApiErr.notFound "Index not found")
  | some ix =>
    match parseRoleExact role with
    | none => Except.error (ApiErr.keyError role)
    | some r =>
      match (if user_has_role user Role.ADMIN then Except.ok ()
             else check_role_fast st user
               (if r == Role.ADMIN then Role.ADMIN else Role.WRITER) ix) with
      | Except.error e => Except.error e
      | Except.ok _ =>
        match users.find? (fun u => u.email == email) with
        | none => Except.error (ApiErr.notFound "User not found")
        | some u => Except.ok (IndexUserResp.added u.email ixName r)

/-! ## Unguarded endpoints (for C9) -/

/-- The field/value/refresh part of the `amcat4.elastic` backend contract. -/
structure Elastic where
  get_fields : List String → List (String × String)
  get_values : String → String → List Prim
  refresh : String → Unit

/-- Modelled from the spec: `authenticated_user` of `amcat4/api/auth.py` (not under
src/): "verify token → user"; an unauthenticated request is Unauthorized. -/
def authenticated_user (u : Option User) : Except ApiErr User :=
  match u with
  | none => Except.error (ApiErr.unauthorized "Not authenticated")
  | some u' => Except.ok u'

/-- `get_fields(ix)` (amcat4/api/index.py): authentication is required but no role
is checked; the index string is split on commas and handed to the backend. -/
def get_fields_endpoint (el : Elastic) (_st : RoleState) (current : Option User)
    (ix : String) : Except ApiErr (List (String × String)) :=
  match authenticated_user current with
  | Except.error e => Except.error e
  | Except.ok _ => Except.ok (el.get_fields (ix.splitOn ","))

/-- `get_values(ix, field)` (amcat4/api/index.py): authentication required, no role
check. -/
def get_values_endpoint (el : Elastic) (_st : RoleState) (current : Option User)
    (ix : String) (field : String) : Except ApiErr (List Prim) :=
  match authenticated_user current with
  | Except.error e => Except.error e
  | Except.ok _ => Except.ok (el.get_values ix field)

/-- `refresh_index(ix)` (amcat4/api/index.py): no authentication dependency at all
— the request context (possibly anonymous) is ignored entirely. -/
def refresh_index_endpoint (el : Elastic) (_st : RoleState) (_current : Option User)
    (ix : String) : Except ApiErr Unit :=
  Except.ok (el.refresh ix)

/-! ## Helper lemmas -/

/-- `find?` is unaffected by filtering with a predicate that every `find?`-match
satisfies. -/
theorem find?_filter_imp {α : Type} (l : List α) (p q : α → Bool)
    (h : ∀ x, q x = true → p x = true) :
    (l.filter p).find? q = l.find? q := by
  induction l with
  | nil => rfl
  | cons a t ih =>
    cases hq : q a with
    | true =>
      have hp := h a hq
      simp [List.filter_cons, hp, List.find?_cons, hq]
    | false =>
      cases hp : p a with
      | true => simp [List.filter_cons, hp, List.find?_cons, hq, ih]
      | false => simp [List.filter_cons, hp, List.find?_cons, hq, ih]

/-- Popping one key does not change the lookup of a different key. -/
theorem lookupSpec_filter_ne (s : List (String × FVal)) (k k' : String)
    (h : k' ≠ k) :
    lookupSpec (s.filter (fun kv => !(kv.1 == k))) k' = lookupSpec s k' := by
  unfold lookupSpec
  rw [find?_filter_imp]
  intro x hx
  have hx' : x.1 = k' := by
    have := of_decide_eq_true (by simpa [beq_iff_eq] using hx)
    simpa [beq_iff_eq] using hx
  simp [hx', beq_iff_eq, h]

/-- Every role is at most ADMIN. -/
theorem roleLe_admin (r : Role) : roleLe r Role.ADMIN = true := by
  cases r <;> rfl

/-- A global ADMIN passes every index-scoped check for ADMIN. -/
theorem index_has_role_of_global_admin (st : RoleState) (u : User) (ix : IndexRec)
    (h : u.global_role = some Role.ADMIN) :
    index_has_role st u ix Role.ADMIN = true := by
  unfold index_has_role effective_role
  rw [h]
  simp only [if_pos rfl]
  cases oRoleMax (explicitIndexRole st u.email ix.name) ix.guest_role with
  | none => rfl
  | some x => cases x <;> rfl

/-- If a user lacks ADMIN on some index, their global role is not ADMIN, so the
global `has_role(ADMIN)` short-circuit fails too. -/
theorem user_has_role_admin_false_of_index (st : RoleState) (u : User) (ix : IndexRec)
    (h : index_has_role st u ix Role.ADMIN = false) :
    user_has_role u Role.ADMIN = false := by
  cases hg : u.global_role with
  | none => simp [user_has_role, hg]
  | some g =>
    cases g with
    | READER => simp [user_has_role, hg, roleLe, roleVal]
    | METAREADER => simp [user_has_role, hg, roleLe, roleVal]
    | WRITER => simp [user_has_role, hg, roleLe, roleVal]
    | ADMIN =>
      exact absurd (index_has_role_of_global_admin st u ix hg) (by simp [h])

/-- Case-insensitive role parsing of the literal "ADMIN". -/
theorem parseRoleUpper_ADMIN : parseRoleUpper "ADMIN" = some Role.ADMIN := by decide

/-! ## C1 -/

/-- C1: for an acting principal whose role at the relevant scope is WRITER and not
ADMIN, creating a user with global role ADMIN (`create_user`) and adding an index
user with role ADMIN (`add_index_users`) both fail Unauthorized, while both succeed
when the acting principal holds ADMIN at that scope. -/
theorem c1_admin_grant_requires_admin (st : RoleState) (actor : User)
    (existing : List String) (email pw ixName : String)
    (indices : List IndexRec) (users : List User) (ix : IndexRec) (target : User)
    (hix : indices.find? (fun i => i.name == ixName) = some ix)
    (htarget : users.find? (fun u => u.email == email) = some target)
    (hfresh : email ∉ existing) :
    (actor.global_role = some Role.WRITER →
      create_user st (some actor) existing email pw (some "ADMIN")
        = Except.error (ApiErr.unauthorized "User does not have role"))
    ∧ (actor.global_role = some Role.ADMIN →
      create_user st (some actor) existing email pw (some "ADMIN")
        = Except.ok (UserResp.created email))
    ∧ (index_has_role st actor ix Role.WRITER = true →
       index_has_role st actor ix Role.ADMIN = false →
      add_index_users st indices users ixName email "ADMIN" actor
        = Except.error (ApiErr.unauthorized "User does not have role on index"))
    ∧ (index_has_role st actor ix Role.ADMIN = true →
      add_index_users st indices users ixName email "ADMIN" actor
        = Except.ok (IndexUserResp.added target.email ixName Role.ADMIN)) := by
  refine ⟨?_, ?_, ?_, ?_⟩
  · intro h
    simp [create_user, check_role, user_has_role, h, roleLe, roleVal, hfresh,
          parseRoleUpper_ADMIN]
  · intro h
    simp [create_user, check_role, user_has_role, h, roleLe, roleVal, hfresh,
          parseRoleUpper_ADMIN]
  · intro _hw hna
    have hga := user_has_role_admin_false_of_index st actor ix hna
    simp [add_index_users, hix, parseRoleExact, hga, check_role_fast, hna]
  · intro hia
    cases hga : user_has_role actor Role.ADMIN with
    | true => simp [add_index_users, hix, parseRoleExact, hga, htarget]
    | false => simp [add_index_users, hix, parseRoleExact, hga, check_role_fast, hia, htarget]

/-- C1 witness: concrete principals and stores exercising all four parts. -/
theorem c1_admin_grant_requires_admin_witness :
    (create_user [] (some ⟨"w@x", some Role.WRITER⟩) [] "new@x" "pw" (some "ADMIN")
      = Except.error (ApiErr.unauthorized "User does not have role"))
    ∧ (create_user [] (some ⟨"a@x", some Role.ADMIN⟩) [] "new@x" "pw" (some "ADMIN")
      = Except.ok (UserResp.created "new@x"))
    ∧ (add_index_users [("w@x", "ix1", Role.WRITER)] [⟨"ix1", none⟩] [⟨"t@x", none⟩]
        "ix1" "t@x" "ADMIN" ⟨"w@x", none⟩
      = Except.error (ApiErr.unauthorized "User does not have role on index"))
    ∧ (add_index_users [("a@x", "ix1", Role.ADMIN)] [⟨"ix1", none⟩] [⟨"t@x", none⟩]
        "ix1" "t@x" "ADMIN" ⟨"a@x", none⟩
      = Except.ok (IndexUserResp.added "t@x" "ix1" Role.ADMIN)) := by
  refine ⟨?_, ?_, ?_, ?_⟩
  · exact (c1_admin_grant_requires_admin [] ⟨"w@x", some Role.WRITER⟩ [] "new@x" "pw" "i"
      [⟨"i", none⟩] [⟨"new@x", none⟩] ⟨"i", none⟩ ⟨"new@x", none⟩ rfl (by decide) (by decide)).1 rfl
  · exact (c1_admin_grant_requires_admin [] ⟨"a@x", some Role.ADMIN⟩ [] "new@x" "pw" "i"
      [⟨"i", none⟩] [⟨"new@x", none⟩] ⟨"i", none⟩ ⟨"new@x", none⟩ rfl (by decide) (by decide)).2.1 rfl
  · exact (c1_admin_grant_requires_admin [("w@x", "ix1", Role.WRITER)] ⟨"w@x", none⟩ []
      "t@x" "pw" "ix1" [⟨"ix1", none⟩] [⟨"t@x", none⟩] ⟨"ix1", none⟩ ⟨"t@x", none⟩
      rfl (by decide) (by decide)).2.2.1 (by decide) (by decide)
  · exact (c1_admin_grant_requires_admin [("a@x", "ix1", Role.ADMIN)] ⟨"a@x", none⟩ []
      "t@x" "pw" "ix1" [⟨"ix1", none⟩] [⟨"t@x", none⟩] ⟨"ix1", none⟩ ⟨"t@x", none⟩
      rfl (by decide) (by decide)).2.2.2 (by decide)

/-! ## C9 -/

/-- C9: `get_fields` and `get_values` succeed for every authenticated principal,
whatever the role-assignment state (no index-scoped role requirement), and
`refresh_index` ignores the (possibly absent) principal entirely. -/
theorem c9_unguarded_endpoints :
    (∀ (el : Elastic) (st : RoleState) (u : User) (ix : String),
        get_fields_endpoint el st (some u) ix = Except.ok (el.get_fields (ix.splitOn ",")))
    ∧ (∀ (el : Elastic) (st : RoleState) (u : User) (ix field : String),
        get_values_endpoint el st (some u) ix field = Except.ok (el.get_values ix field))
    ∧ (∀ (el : Elastic) (st : RoleState) (cu : Option User) (ix : String),
        refresh_index_endpoint el st cu ix = Except.ok (el.refresh ix)) :=
  ⟨fun _ _ _ _ => rfl, fun _ _ _ _ _ => rfl, fun _ _ _ _ => rfl⟩

/-! ## C6 -/

/-- C6 (code bug): on a single-match fragment the claimed span (offset 4, length 3)
does come out, but the regex `<em>.+</em>` is greedy, so two matches on one line are
swallowed into a single span — the per-match output the claim (and the code's own
cumulative `tagsize*i` correction) describes is not produced. -/
theorem c6_highlight_span_greedy_regex :
    extract_highlight_span "The <em>cat</em> sat" = [(4, 3)]
    ∧ extract_highlight_span "The <em>cat</em> sat on the <em>mat</em>" = [(4, 27)]
    ∧ extract_highlight_span "The <em>cat</em> sat on the <em>mat</em>" ≠ [(4, 3), (19, 3)] := by
  exact ⟨by decide, by decide, by decide⟩

/-! ## C7 -/

/-- A backend returning one hit with a highlighted title, for exercising the
annotation path on concrete inputs. -/
def annDemoBackend : Backend :=
  { search := fun _ =>
      { hits := [{ id := "d1", source := [("title", Prim.str "t")],
                   highlight := some [("title", ["The <em>cat</em> sat"])] }],
        total := { value := 1 }, scroll_id := some "sc1" },
    scroll := fun _ => { hits := [], total := { value := 0 }, scroll_id := none } }

/-- C7 (code bug): with annotations requested and two labeled queries, no
annotation is ever returned: `query_annotations` passes the Python list `[query]`
to `build_body`, whose `parse_queries` calls `.values()` on it and raises
`AttributeError` before any per-query search is issued — `query_documents`
propagates the exception instead of returning the first query's spans. -/
theorem c7_annotations_first_query_attribute_error :
    query_documents annDemoBackend "ix" (some (QArg.dict [("q1", "cat"), ("q2", "dog")]))
        0 10 none none none none false true
      = Except.error (PyErr.attributeError "list object has no attribute values")
    ∧ query_annotations annDemoBackend "ix" "d1"
        (some (QArg.dict [("q1", "cat"), ("q2", "dog")]))
      = Except.error (PyErr.attributeError "list object has no attribute values") :=
  ⟨rfl, rfl⟩

/-! ## C10 -/

/-- The constructed `QueryResult` always carries exactly the data list it was
given. -/
theorem queryResultInit_data (data : List HitDict) (n : Option ESTotal)
    (per_page page page_count : Option Nat) (scroll_id : Option String) (qr : QueryResult)
    (h : queryResultInit data n per_page page page_count scroll_id = Except.ok qr) :
    qr.data = data := by
  cases n with
  | none =>
    simp [queryResultInit] at h
    rw [← h]
  | some t =>
    cases page_count with
    | some pc =>
      simp [queryResultInit] at h
      rw [← h]
    | none =>
      cases per_page with
      | none => simp [queryResultInit] at h
      | some pp =>
        by_cases hz : (pp == 0) = true
        · simp [queryResultInit, hz] at h
        · simp only [Bool.not_eq_true] at hz
          simp [queryResultInit, hz] at h
          rw [← h]

/-- With annotations on and no queries, processing any nonempty hit list raises
`TypeError` (iterating `None`); success is only possible on an empty hit list. -/
theorem processHits_none_true (backend : Backend) (ix : String) (hits : List ESHit)
    (ds : List HitDict)
    (h : processHits backend ix none true hits = Except.ok ds) : hits = [] ∧ ds = [] := by
  cases hits with
  | nil =>
    refine ⟨rfl, ?_⟩
    simp [processHits] at h
    exact h
  | cons a t =>
    exfalso
    simp [processHits, processHit, query_annotations] at h

/-- C10: calling `query_documents` with `annotations=True` and no queries cannot
return hits without annotations: any successful return has an empty data set, and
whenever the backend returns at least one hit the call raises `TypeError` because
the per-hit annotation step iterates over the missing (None) query collection. -/
theorem c10_annotations_without_queries (backend : Backend) (ixName : String)
    (page per_page : Nat) (scroll : Option ScrollVal) (scroll_id : Option String)
    (fields : Option (List String)) (filters : Option Filters) (hl : Bool) :
    (∀ qr : QueryResult,
       query_documents backend ixName none page per_page scroll scroll_id fields filters hl true
         = Except.ok (some qr) → qr.data = [])
    ∧ (∀ (body : Body) (hit : ESHit) (rest : List ESHit),
        (build_body none filters hl).1 = Except.ok body →
        (backend.search { index := ixName, body := body, size := some per_page,
                          from_ := some (page * per_page), scroll := none,
                          source := fields }).hits = hit :: rest →
        query_documents backend ixName none page per_page none none fields filters hl true
          = Except.error (PyErr.typeError "NoneType object is not iterable")) := by
  constructor
  · intro qr hq
    unfold query_documents at hq
    simp only [normQueries] at hq
    split at hq
    · split at hq
      · simp at hq
      · split at hq
        · simp at hq
        · rename_i data heq
          obtain ⟨-, hd⟩ := processHits_none_true _ _ _ _ heq
          subst hd
          split at hq
          · simp at hq
          · rename_i qr2 heq2
            simp at hq
            rw [← hq]
            exact queryResultInit_data _ _ _ _ _ _ _ heq2
    · split at hq
      · simp at hq
      · split at hq
        · simp at hq
        · rename_i data heq
          obtain ⟨-, hd⟩ := processHits_none_true _ _ _ _ heq
          subst hd
          split at hq
          · split at hq
            · simp at hq
            · split at hq
              · simp at hq
              · rename_i qr2 heq2
                simp at hq
                rw [← hq]
                exact queryResultInit_data _ _ _ _ _ _ _ heq2
          · split at hq
            · simp at hq
            · rename_i qr2 heq2
              simp at hq
              rw [← hq]
              exact queryResultInit_data _ _ _ _ _ _ _ heq2
  · intro body hit rest hb hh
    unfold query_documents
    simp only [normQueries, scrollIdTruthy, scrollTruthy, scrollKwarg]
    simp only [Bool.or_self, Bool.false_eq_true, if_false]
    rw [hb]
    simp only []
    rw [hh]
    simp [processHits, processHit, query_annotations]

/-- C10 witness: a concrete one-hit backend makes the call raise the TypeError. -/
theorem c10_annotations_without_queries_witness :
    query_documents annDemoBackend "ix" none 0 10 none none none none false true
      = Except.error (PyErr.typeError "NoneType object is not iterable") :=
  (c10_annotations_without_queries annDemoBackend "ix" 0 10 none none none none false).2
    ⟨Query.matchAll, false⟩
    ⟨"d1", [("title", Prim.str "t")], some [("title", ["The <em>cat</em> sat"])]⟩ [] rfl rfl

/-! ## C2 -/

/-- The six keys `parse_filter` consumes. -/
def isRecognizedKey (s : String) : Bool :=
  s == "values" || s == "value" || ["gt", "gte", "lt", "lte"].contains s

/-- The range loop leaves exactly the entries whose key is not in `ks`. -/
theorem popRangeAux_state (ks : List String) (s : List (String × FVal)) :
    (popRangeAux ks s).2 = s.filter (fun kv => !(ks.contains kv.1)) := by
  induction ks generalizing s with
  | nil =>
    simp [popRangeAux, List.contains]
  | cons k ks ih =>
    have : (popRangeAux (k :: ks) s).2
        = (popRangeAux ks (s.filter (fun kv => !(kv.1 == k)))).2 := rfl
    rw [this, ih, List.filter_filter]
    refine List.filter_congr ?_
    intro x _
    cases h1 : x.1 == k <;> cases h2 : ks.contains x.1 <;>
      simp_all [List.contains_cons]

/-- Pointwise form of "not a recognized key" for the filter composition. -/
theorem not_recognized_pointwise (x : String) :
    (!(["gt", "gte", "lt", "lte"].contains x) && (!(x == "value") && !(x == "values")))
      = !(isRecognizedKey x) := by
  cases h1 : x == "values" <;> cases h2 : x == "value" <;>
    cases h3 : ["gt", "gte", "lt", "lte"].contains x <;>
      simp_all [isRecognizedKey]

/-- The spec dict left after popping `values`, `value` and the four range keys is
the original spec minus all recognized keys. -/
theorem parse_filter_leftover (spec : List (String × FVal)) :
    (popRangeAux ["gt", "gte", "lt", "lte"]
        ((popKey (popKey spec "values").2 "value").2)).2
      = spec.filter (fun kv => !(isRecognizedKey kv.1)) := by
  simp only [popKey]
  rw [popRangeAux_state, List.filter_filter, List.filter_filter]
  refine List.filter_congr ?_
  intro x _
  have h := not_recognized_pointwise x.1
  simpa [Bool.and_assoc] using h

/-- When `parse_filter` does not raise during values-iteration, its final spec state
is the original spec minus all recognized keys. -/
theorem parse_filter_state (field : String) (spec : List (String × FVal)) (c : Clause)
    (hok : (parse_filter field spec).1 = Except.ok c) :
    (parse_filter field spec).2 = spec.filter (fun kv => !(isRecognizedKey kv.1)) := by
  have key := parse_filter_leftover spec
  simp only [parse_filter] at hok ⊢
  split
  · rename_i e heq
    exfalso
    rw [heq] at hok
    simp at hok
  · rename_i vlist heq
    split
    · exact key
    · exact key

/-- `parseFilters` on success leaves every per-field spec emptied of its
recognized keys. -/
theorem parseFilters_state (fl : List (String × FilterSpec)) (cs : List Clause)
    (h : (parseFilters fl).1 = Except.ok cs) :
    (parseFilters fl).2
      = fl.map (fun p => (p.1, p.2.filter (fun kv => !(isRecognizedKey kv.1)))) := by
  induction fl generalizing cs with
  | nil => rfl
  | cons hd rest ih =>
    obtain ⟨field, spec⟩ := hd
    rcases hp : parse_filter field spec with ⟨a, spec2⟩
    cases a with
    | error e =>
      exfalso
      simp [parseFilters, hp] at h
    | ok c1 =>
      rcases hr : parseFilters rest with ⟨b, rest2⟩
      cases b with
      | error e =>
        exfalso
        simp [parseFilters, hp, hr] at h
      | ok cs2 =>
        have hsp : spec2 = spec.filter (fun kv => !(isRecognizedKey kv.1)) := by
          have h1 : (parse_filter field spec).1 = Except.ok c1 := by rw [hp]
          have h2 := parse_filter_state field spec c1 h1
          rw [hp] at h2
          exact h2
        have hrest : rest2
            = rest.map (fun p => (p.1, p.2.filter (fun kv => !(isRecognizedKey kv.1)))) := by
          have h1 : (parseFilters rest).1 = Except.ok cs2 := by rw [hr]
          have h2 := ih cs2 h1
          rw [hr] at h2
          exact h2
        simp [parseFilters, hp, hr, hsp, hrest]

/-- C2 counterexample: `build_body` does not leave its input mappings unmodified —
after one call the per-field spec has been emptied by `pop`. -/
theorem c2_build_body_mutates_filters :
    ¬ ((build_body none (some [("f", [("value", FVal.prim (Prim.int 1))])]) false).2
        = some [("f", [("value", FVal.prim (Prim.int 1))])]) := by
  decide

/-- C2 (amended): the compiled structure is a deterministic function of the inputs
(equal inputs give equal compiled bodies), but `build_body` consumes its filter
mappings: on any successful compilation each per-field spec dict has had all
recognized keys popped out of it. -/
theorem c2_deterministic_but_mutating :
    (∀ (q : Option QArg) (f1 f2 : Option Filters) (hl : Bool), f1 = f2 →
        (build_body q f1 hl).1 = (build_body q f2 hl).1)
    ∧ (∀ (q : Option QArg) (fl : Filters) (hl : Bool) (body : Body),
        (build_body q (some fl) hl).1 = Except.ok body →
        (build_body q (some fl) hl).2
          = some ((fl : List (String × FilterSpec)).map
              (fun p => (p.1, p.2.filter (fun kv => !(isRecognizedKey kv.1)))))) := by
  constructor
  · intro q f1 f2 hl h
    rw [h]
  · intro q fl hl body hb
    by_cases h1 : (!(qTruthy q) && !(fTruthy (some fl))) = true
    · have hfe : (fl : List (String × FilterSpec)).isEmpty = true := by
        have := (Bool.and_eq_true _ _).mp h1
        simpa [fTruthy] using this.2
      have hfl : (fl : List (String × FilterSpec)) = [] := List.isEmpty_iff.mp hfe
      simp only [build_body, hfl]
      repeat' split
      all_goals rfl
    · by_cases h2 : (fl : List (String × FilterSpec)).isEmpty = true
      · have hfl : (fl : List (String × FilterSpec)) = [] := List.isEmpty_iff.mp h2
        simp only [build_body, hfl]
        repeat' split
        all_goals rfl
      · rcases hpf : parseFilters fl with ⟨a, st2⟩
        cases a with
        | error e =>
          exfalso
          simp [build_body, h1, h2, hpf] at hb
        | ok fs0 =>
          have hst : st2
              = fl.map (fun p => (p.1, p.2.filter (fun kv => !(isRecognizedKey kv.1)))) := by
            have ha : (parseFilters fl).1 = Except.ok fs0 := by rw [hpf]
            have h3 := parseFilters_state fl fs0 ha
            rw [hpf] at h3
            exact h3
          have hft : fTruthy (some fl) = true := by
            simp only [fTruthy]
            simp [Bool.not_eq_true] at h2 ⊢
            exact h2
          by_cases hq : qTruthy q = true
          · cases hpq : parse_queries (q.getD (QArg.dict [])) with
            | error e =>
              exfalso
              simp [build_body, h1, h2, hpf, hq, hpq] at hb
            | ok qc => simp [build_body, h1, h2, hpf, hq, hpq, hst, hft]
          · simp [build_body, h1, h2, hpf, hq, hst, hft]

/-- C2 amended-claim witness: a concrete successful compilation, with the
determinism half applied at concrete equal inputs. -/
theorem c2_deterministic_but_mutating_witness :
    ((build_body none (some [("f", [("value", FVal.prim (Prim.int 1))])]) false).1
       = (build_body none (some [("f", [("value", FVal.prim (Prim.int 1))])]) false).1)
    ∧ (build_body none (some [("f", [("value", FVal.prim (Prim.int 1))])]) false).2
       = some [("f", [])] := by
  constructor
  · exact c2_deterministic_but_mutating.1 none _ _ false rfl
  · have := c2_deterministic_but_mutating.2 none
      [("f", [("value", FVal.prim (Prim.int 1))])] false
      { query := Query.boolFilter [Clause.boolShould [Clause.term "f" (FVal.prim (Prim.int 1))]],
        highlight := false } rfl
    simpa using this

/-! ## C4 -/

/-- The range loop returns one (key, bound) pair per present range key, keeping the
canonical gt/gte/lt/lte order (keys assumed distinct). -/
theorem popRangeAux_bounds (ks : List String) (s : List (String × FVal))
    (hnd : ks.Nodup) :
    (popRangeAux ks s).1
      = ks.filterMap (fun k => (lookupSpec s k).map (fun v => (k, v))) := by
  induction ks generalizing s with
  | nil => rfl
  | cons k ks ih =>
    obtain ⟨hk, hnd2⟩ := List.nodup_cons.mp hnd
    have hstep : (popRangeAux (k :: ks) s).1
        = (match (popKey s k).1 with
           | some v => [(k, v)]
           | none => []) ++ (popRangeAux ks (popKey s k).2).1 := rfl
    rw [hstep, ih _ hnd2]
    have hcong : ks.filterMap
          (fun k2 => (lookupSpec ((popKey s k).2) k2).map (fun v => (k2, v)))
        = ks.filterMap (fun k2 => (lookupSpec s k2).map (fun v => (k2, v))) := by
      refine List.filterMap_congr ?_
      intro k2 hk2
      have hne : k2 ≠ k := fun he => hk (he ▸ hk2)
      rw [show (popKey s k).2 = s.filter (fun kv => !(kv.1 == k)) from rfl]
      rw [lookupSpec_filter_ne s k k2 hne]
    rw [hcong, List.filterMap_cons]
    have hk1 : (popKey s k).1 = lookupSpec s k := rfl
    rw [hk1]
    cases h : lookupSpec s k <;> simp [h]

/-- Popping `values` does not change the lookup of `value`. -/
theorem popKey_value_after_values (spec : List (String × FVal)) :
    (popKey (popKey spec "values").2 "value").1 = lookupSpec spec "value" := by
  show lookupSpec (spec.filter (fun kv => !(kv.1 == "values"))) "value"
      = lookupSpec spec "value"
  exact lookupSpec_filter_ne spec "values" "value" (by decide)

/-- Popping `values` and `value` does not change the lookup of a range key. -/
theorem lookup_after_two_pops (spec : List (String × FVal)) (k : String)
    (h1 : k ≠ "value") (h2 : k ≠ "values") :
    lookupSpec ((popKey (popKey spec "values").2 "value").2) k = lookupSpec spec k := by
  show lookupSpec ((spec.filter (fun kv => !(kv.1 == "values"))).filter
      (fun kv => !(kv.1 == "value"))) k = lookupSpec spec k
  rw [lookupSpec_filter_ne _ "value" k h1, lookupSpec_filter_ne _ "values" k h2]

/-- The range-bounds dict as described by the spec: whichever of gt/gte/lt/lte are
present, in that canonical order. -/
def rangeBounds (spec : List (String × FVal)) : List (String × FVal) :=
  ["gt", "gte", "lt", "lte"].filterMap (fun k => (lookupSpec spec k).map (fun v => (k, v)))

/-- The range loop's bounds, expressed over the original spec. -/
theorem popRangeAux_bounds_spec (spec : List (String × FVal)) :
    (popRangeAux ["gt", "gte", "lt", "lte"]
      ((popKey (popKey spec "values").2 "value").2)).1 = rangeBounds spec := by
  rw [popRangeAux_bounds _ _ (by decide)]
  refine List.filterMap_congr ?_
  intro k hk
  fin_cases hk
  · rw [lookup_after_two_pops spec "gt" (by decide) (by decide)]
  · rw [lookup_after_two_pops spec "gte" (by decide) (by decide)]
  · rw [lookup_after_two_pops spec "lt" (by decide) (by decide)]
  · rw [lookup_after_two_pops spec "lte" (by decide) (by decide)]

/-- Full evaluation of `parse_filter` once the values-iteration is known to
succeed: term clauses for the values entries, a term clause for `value`, a single
merged range clause, and `ValueError` exactly when unrecognized keys remain. -/
theorem parse_filter_eval (field : String) (spec : List (String × FVal))
    (vlist : List FVal)
    (hpi : pyIter (((popKey spec "values").1).getD (FVal.arr [])) = Except.ok vlist) :
    parse_filter field spec
      = (if (spec.filter (fun kv => !(isRecognizedKey kv.1))).isEmpty
         then Except.ok (Clause.boolShould
            ((vlist.map (fun v => Clause.term field v)
              ++ (match lookupSpec spec "value" with
                  | some v => [Clause.term field v]
                  | none => []))
              ++ (if (rangeBounds spec).isEmpty then []
                  else [Clause.range field (rangeBounds spec)])))
         else Except.error (PyErr.valueError "Unknown filter type(s)"),
        spec.filter (fun kv => !(isRecognizedKey kv.1))) := by
  simp only [parse_filter, hpi]
  rw [popKey_value_after_values, popRangeAux_bounds_spec, parse_filter_leftover]
  by_cases hc : (spec.filter (fun kv => !(isRecognizedKey kv.1))).isEmpty = true
  · simp [hc]
  · simp [hc]

/-- The `values` entry, when present, must be a list (Python would otherwise
iterate characters or raise TypeError). -/
def valuesWellTyped (spec : List (String × FVal)) : Bool :=
  match lookupSpec spec "values" with
  | some (FVal.prim _) => false
  | _ => true

/-- The per-field disjunction as the spec's words describe it (for comparison with
`parse_filter`): one equality clause per entry of `values`, one for `value` when
present, and a single range clause merging whichever bounds are present. -/
def spec_field_clauses (field : String) (spec : List (String × FVal)) : List Clause :=
  ((match lookupSpec spec "values" with
    | some (FVal.arr l) => l.map (fun p => Clause.term field (FVal.prim p))
    | _ => [])
   ++ (match lookupSpec spec "value" with
       | some v => [Clause.term field v]
       | none => []))
  ++ (if (rangeBounds spec).isEmpty then [] else [Clause.range field (rangeBounds spec)])

/-- C4: for a well-typed filter spec, compilation yields exactly the described
per-field disjunction whenever every key is recognized, and raises `InvalidFilter`
(a `ValueError`) if and only if some key other than
value/values/gt/gte/lt/lte is present. -/
theorem c4_parse_filter_clauses_and_errors (field : String)
    (spec : List (String × FVal)) (hwt : valuesWellTyped spec = true) :
    (spec.all (fun kv => isRecognizedKey kv.1) = true →
      (parse_filter field spec).1
        = Except.ok (Clause.boolShould (spec_field_clauses field spec)))
    ∧ ((∃ msg, (parse_filter field spec).1 = Except.error (PyErr.valueError msg))
        ↔ spec.any (fun kv => !(isRecognizedKey kv.1)) = true) := by
  obtain ⟨vlist, hpi, hvl⟩ :
      ∃ vlist, pyIter (((popKey spec "values").1).getD (FVal.arr [])) = Except.ok vlist ∧
        vlist.map (fun v => Clause.term field v)
          = (match lookupSpec spec "values" with
             | some (FVal.arr l) => l.map (fun p => Clause.term field (FVal.prim p))
             | _ => []) := by
    have hk1 : (popKey spec "values").1 = lookupSpec spec "values" := rfl
    cases hv : lookupSpec spec "values" with
    | none => exact ⟨[], by rw [hk1, hv]; rfl, rfl⟩
    | some v =>
      cases v with
      | prim p =>
        exfalso
        simp [valuesWellTyped, hv] at hwt
      | arr l =>
        refine ⟨l.map FVal.prim, by rw [hk1, hv]; rfl, ?_⟩
        rw [List.map_map]
        rfl
  have heval := parse_filter_eval field spec vlist hpi
  constructor
  · intro hall
    have hnil : spec.filter (fun kv => !(isRecognizedKey kv.1)) = [] := by
      rw [List.filter_eq_nil_iff]
      intro a ha
      have h := List.all_eq_true.mp hall a ha
      simp [h]
    rw [heval]
    simp only [hnil, List.isEmpty_nil, if_true]
    rw [hvl]
    rfl
  · rw [heval]
    constructor
    · rintro ⟨msg, hmsg⟩
      by_cases hc : (spec.filter (fun kv => !(isRecognizedKey kv.1))).isEmpty = true
      · simp [hc] at hmsg
      · cases hf : spec.filter (fun kv => !(isRecognizedKey kv.1)) with
        | nil => exact absurd (by simp [hf]) hc
        | cons a t =>
          have ha : a ∈ spec.filter (fun kv => !(isRecognizedKey kv.1)) :=
            hf ▸ List.mem_cons_self a t
          have hm := List.mem_filter.mp ha
          exact List.any_eq_true.mpr ⟨a, hm.1, hm.2⟩
    · intro hany
      obtain ⟨x, hx, hpx⟩ := List.any_eq_true.mp hany
      have hne : spec.filter (fun kv => !(isRecognizedKey kv.1)) ≠ [] := by
        intro h0
        have h := List.filter_eq_nil_iff.mp h0 x hx
        simp [hpx] at h
      have hc : (spec.filter (fun kv => !(isRecognizedKey kv.1))).isEmpty = false := by
        rw [← Bool.not_eq_true]
        intro hT
        exact hne (List.isEmpty_iff.mp hT)
      exact ⟨"Unknown filter type(s)", by simp [hc]⟩

/-- C4 witness: the spec's own example `{"values": [1,2], "gte": 5}` compiles to the
described disjunction, and `{"foo": 1}` raises the error. -/
theorem c4_parse_filter_clauses_and_errors_witness :
    (parse_filter "f" [("values", FVal.arr [Prim.int 1, Prim.int 2]),
                       ("gte", FVal.prim (Prim.int 5))]).1
      = Except.ok (Clause.boolShould (spec_field_clauses "f"
          [("values", FVal.arr [Prim.int 1, Prim.int 2]),
           ("gte", FVal.prim (Prim.int 5))]))
    ∧ ((∃ msg, (parse_filter "f" [("foo", FVal.prim (Prim.int 1))]).1
          = Except.error (PyErr.valueError msg))
        ↔ [("foo", FVal.prim (Prim.int 1))].any (fun kv => !(isRecognizedKey kv.1)) = true) :=
  ⟨(c4_parse_filter_clauses_and_errors "f" _ (by decide)).1 (by decide),
   (c4_parse_filter_clauses_and_errors "f" _ (by decide)).2⟩

/-! ## C3 -/

/-- Without annotations the hit loop never raises: each hit becomes its base dict
with highlight overrides applied. -/
theorem processHits_no_ann (backend : Backend) (ix : String) (queries : Option QArg)
    (hits : List ESHit) :
    processHits backend ix queries false hits
      = Except.ok (hits.map (fun h => applyHighlight h (hitBase h))) := by
  induction hits with
  | nil => rfl
  | cons a t ih => simp [processHits, processHit, ih]

/-- C3: in paged mode (no scroll, no cursor) `query_documents` issues one search
sized `per_page` at offset `page * per_page`, and wraps the answer into a
`QueryResult` with `page_count = ceil(total / per_page)`, the requested page, and
no scroll cursor. -/
theorem c3_paged_mode (backend : Backend) (ixName : String) (queries0 : Option QArg)
    (filters : Option Filters) (page per_page : Nat) (fields : Option (List String))
    (hl : Bool) (body : Body)
    (hpp : 0 < per_page)
    (hb : (build_body (normQueries queries0) filters hl).1 = Except.ok body) :
    query_documents backend ixName queries0 page per_page none none fields filters hl false
      = Except.ok (some
          { data := ((backend.search
                { index := ixName, body := body, size := some per_page,
                  from_ := some (page * per_page), scroll := none,
                  source := fields }).hits.map (fun h => applyHighlight h (hitBase h))),
            total_count := some (backend.search
                { index := ixName, body := body, size := some per_page,
                  from_ := some (page * per_page), scroll := none,
                  source := fields }).total,
            page := some page,
            page_count := some (ceilNat (backend.search
                { index := ixName, body := body, size := some per_page,
                  from_ := some (page * per_page), scroll := none,
                  source := fields }).total.value per_page),
            per_page := some per_page,
            scroll_id := none }) := by
  have hz : (per_page == 0) = false := by
    simp only [beq_eq_false_iff_ne]
    omega
  unfold query_documents
  simp only [scrollIdTruthy, scrollTruthy, scrollKwarg, Bool.or_self, Bool.false_eq_true,
             if_false]
  rw [hb]
  simp only [Bool.false_eq_true, if_false]
  rw [processHits_no_ann]
  simp only [queryResultInit, hz, Bool.false_eq_true, if_false]

/-- A backend whose every search answer is empty with total 25, for the C3 witness. -/
def pagedDemoBackend : Backend :=
  { search := fun _ => { hits := [], total := { value := 25 }, scroll_id := none },
    scroll := fun _ => { hits := [], total := { value := 0 }, scroll_id := none } }

/-- C3 witness: page 0, per_page 10, total 25 gives page_count 3 and no cursor. -/
theorem c3_paged_mode_witness :
    query_documents pagedDemoBackend "i" none 0 10 none none none none false false
      = Except.ok (some
          { data := [], total_count := some { value := 25 }, page := some 0,
            page_count := some 3, per_page := some 10, scroll_id := none }) :=
  c3_paged_mode pagedDemoBackend "i" none none 0 10 none false
    { query := Query.matchAll, highlight := false } (by decide) rfl

/-! ## C5 -/

/-- C5: in scroll-continue mode an empty batch returns the `None` sentinel, not an
error; a nonempty batch returns a `QueryResult` that carries the supplied cursor
and no total-count or page metadata. -/
theorem c5_scroll_continue (backend : Backend) (ixName : String)
    (queries0 : Option QArg) (page per_page : Nat) (scroll : Option ScrollVal)
    (fields : Option (List String)) (filters : Option Filters) (hl : Bool)
    (c : String) (hc : c ≠ "") :
    ((backend.scroll { scroll_id := c, scroll := scrollKwarg scroll (some c) }).hits = [] →
      query_documents backend ixName queries0 page per_page scroll (some c) fields filters hl false
        = Except.ok none)
    ∧ (∀ (hit : ESHit) (rest : List ESHit),
        (backend.scroll { scroll_id := c, scroll := scrollKwarg scroll (some c) }).hits
          = hit :: rest →
        query_documents backend ixName queries0 page per_page scroll (some c) fields filters hl false
          = Except.ok (some
              { data := (hit :: rest).map (fun h => applyHighlight h (hitBase h)),
                total_count := none, page := none, page_count := none,
                per_page := none, scroll_id := some c })) := by
  have htr : scrollIdTruthy (some c) = true := by
    simp [scrollIdTruthy, hc]
  constructor
  · intro hempty
    unfold query_documents
    simp [htr, hempty]
  · intro hit rest hcons
    unfold query_documents
    simp only [htr, if_true, Option.getD_some]
    rw [hcons]
    simp only [List.isEmpty_cons, Bool.false_eq_true, if_false]
    rw [processHits_no_ann]
    simp [queryResultInit]

/-- A backend for the C5 witness: scrolling yields one hit, then nothing would
follow; a second backend yields the empty batch. -/
def scrollDemoBackend : Backend :=
  { search := fun _ => { hits := [], total := { value := 0 }, scroll_id := none },
    scroll := fun _ =>
      { hits := [{ id := "d1", source := [("title", Prim.str "t")], highlight := none }],
        total := { value := 1 }, scroll_id := some "cur1" } }

/-- C5 witness: the empty-batch sentinel on one backend, the cursor-carrying result
on another. -/
theorem c5_scroll_continue_witness :
    query_documents pagedDemoBackend "i" none 0 10 none (some "cur1") none none false false
      = Except.ok none
    ∧ query_documents scrollDemoBackend "i" none 0 10 none (some "cur1") none none false false
      = Except.ok (some
          { data := [[("_id", HVal.prim (Prim.str "d1")), ("title", HVal.prim (Prim.str "t"))]],
            total_count := none, page := none, page_count := none,
            per_page := none, scroll_id := some "cur1" }) :=
  ⟨(c5_scroll_continue pagedDemoBackend "i" none 0 10 none none none false "cur1"
      (by decide)).1 rfl,
   (c5_scroll_continue scrollDemoBackend "i" none 0 10 none none none false "cur1"
      (by decide)).2
      { id := "d1", source := [("title", Prim.str "t")], highlight := none } [] rfl⟩

/-! ## C8 -/

/-- The constructed `QueryResult` carries exactly the page and scroll_id it was
given. -/
theorem queryResultInit_page_scroll (data : List HitDict) (n : Option ESTotal)
    (per_page page page_count : Option Nat) (scroll_id : Option String) (qr : QueryResult)
    (h : queryResultInit data n per_page page page_count scroll_id = Except.ok qr) :
    qr.scroll_id = scroll_id ∧ qr.page = page := by
  cases n with
  | none =>
    simp [queryResultInit] at h
    rw [← h]
    exact ⟨rfl, rfl⟩
  | some t =>
    cases page_count with
    | some pc =>
      simp [queryResultInit] at h
      rw [← h]
      exact ⟨rfl, rfl⟩
    | none =>
      cases per_page with
      | none => simp [queryResultInit] at h
      | some pp =>
        by_cases hz : (pp == 0) = true
        · simp [queryResultInit, hz] at h
        · simp only [Bool.not_eq_true] at hz
          simp [queryResultInit, hz] at h
          rw [← h]
          exact ⟨rfl, rfl⟩

/-- The two mode-dependent keys of the serialized meta dict. -/
theorem as_dict_lookup (qr : QueryResult) :
    (((as_dict qr).1.lookup "scroll_id", (as_dict qr).1.lookup "page")
      = match qr.scroll_id with
        | some s =>
          if s == "" then (none, some (optNatMeta qr.page))
          else (some (MetaVal.str s), none)
        | none => (none, some (optNatMeta qr.page))) := by
  cases hs : qr.scroll_id with
  | none => simp [as_dict, hs, List.lookup]
  | some s =>
    by_cases he : (s == "") = true
    · simp [as_dict, hs, he, List.lookup]
    · simp only [Bool.not_eq_true] at he
      simp [as_dict, hs, he, List.lookup]

/-- C8: any `QueryResult` produced by `query_documents` serializes with exactly one
of the `page` and `scroll_id` keys: paged results carry `page` (and the requested
page number) and no `scroll_id`; scroll results carry a nonempty `scroll_id` and no
`page`.  The backend is assumed never to hand out the empty string as a cursor. -/
theorem c8_exactly_one_page_or_cursor (backend : Backend)
    (hsc : ∀ req, (backend.search req).scroll_id ≠ some "")
    (ixName : String) (queries0 : Option QArg) (page per_page : Nat)
    (scroll : Option ScrollVal) (scroll_id : Option String)
    (fields : Option (List String)) (filters : Option Filters) (hl ann : Bool)
    (qr : QueryResult)
    (hq : query_documents backend ixName queries0 page per_page scroll scroll_id
            fields filters hl ann = Except.ok (some qr)) :
    (((as_dict qr).1.lookup "scroll_id").isSome = !((as_dict qr).1.lookup "page").isSome)
    ∧ (scrollTruthy scroll = false → scrollIdTruthy scroll_id = false →
        (as_dict qr).1.lookup "page" = some (optNatMeta qr.page)
          ∧ (as_dict qr).1.lookup "scroll_id" = none
          ∧ qr.page = some page)
    ∧ ((scrollTruthy scroll = true ∨ scrollIdTruthy scroll_id = true) →
        ((as_dict qr).1.lookup "scroll_id").isSome = true
          ∧ (as_dict qr).1.lookup "page" = none) := by
  have hfacts :
      (qr.scroll_id = none ∧ qr.page = some page
        ∧ scrollTruthy scroll = false ∧ scrollIdTruthy scroll_id = false)
      ∨ (∃ s, qr.scroll_id = some s ∧ s ≠ ""
          ∧ (scrollTruthy scroll = true ∨ scrollIdTruthy scroll_id = true)) := by
    unfold query_documents at hq
    by_cases hsid : scrollIdTruthy scroll_id = true
    · right
      simp only [hsid, if_true] at hq
      split at hq
      · simp at hq
      · split at hq
        · simp at hq
        · split at hq
          · simp at hq
          · rename_i qr2 heq2
            simp only [Except.ok.injEq, Option.some.injEq] at hq
            subst hq
            obtain ⟨hs1, -⟩ := queryResultInit_page_scroll _ _ _ _ _ _ _ heq2
            cases hcid : scroll_id with
            | none => rw [hcid] at hsid; simp [scrollIdTruthy] at hsid
            | some c =>
              rw [hcid] at hsid hs1
              refine ⟨c, hs1, ?_, Or.inr (hcid ▸ hsid)⟩
              intro hce
              rw [hce] at hsid
              simp [scrollIdTruthy] at hsid
    · simp only [hsid] at hq
      simp only [Bool.not_eq_true] at hsid
      simp only [hsid, Bool.false_eq_true, if_false] at hq
      split at hq
      · simp at hq
      · split at hq
        · simp at hq
        · by_cases hscr : scrollTruthy scroll = true
          · right
            simp only [hscr, if_true] at hq
            split at hq
            · simp at hq
            · rename_i rsid heqs
              split at hq
              · simp at hq
              · rename_i qr2 heq2
                simp only [Except.ok.injEq, Option.some.injEq] at hq
                subst hq
                obtain ⟨hs1, -⟩ := queryResultInit_page_scroll _ _ _ _ _ _ _ heq2
                refine ⟨rsid, hs1, ?_, Or.inl hscr⟩
                intro hre
                exact hsc _ (hre ▸ heqs)
          · left
            simp only [Bool.not_eq_true] at hscr
            simp only [hscr, Bool.false_eq_true, if_false] at hq
            split at hq
            · simp at hq
            · rename_i qr2 heq2
              simp only [Except.ok.injEq, Option.some.injEq] at hq
              subst hq
              obtain ⟨hs1, hs2⟩ := queryResultInit_page_scroll _ _ _ _ _ _ _ heq2
              exact ⟨hs1, hs2, hscr, hsid⟩
  have hl := as_dict_lookup qr
  rcases hfacts with ⟨h1, h2, h3, h4⟩ | ⟨s, h1, h2, h3⟩
  · rw [h1] at hl
    have hsc1 : (as_dict qr).1.lookup "scroll_id" = none := by
      have := congrArg Prod.fst hl
      simpa using this
    have hpg : (as_dict qr).1.lookup "page" = some (optNatMeta qr.page) := by
      have := congrArg Prod.snd hl
      simpa using this
    refine ⟨?_, fun _ _ => ⟨hpg, hsc1, h2⟩, fun hor => ?_⟩
    · rw [hsc1, hpg]
      rfl
    · rcases hor with h | h
      · rw [h3] at h
        simp at h
      · rw [h4] at h
        simp at h
  · rw [h1] at hl
    have he : (s == "") = false := by
      simp [beq_eq_false_iff_ne, h2]
    simp only [he, Bool.false_eq_true, if_false] at hl
    have hsc1 : (as_dict qr).1.lookup "scroll_id" = some (MetaVal.str s) := by
      have := congrArg Prod.fst hl
      simpa using this
    have hpg : (as_dict qr).1.lookup "page" = none := by
      have := congrArg Prod.snd hl
      simpa using this
    refine ⟨?_, fun hf1 hf2 => ?_, fun _ => ⟨by rw [hsc1]; rfl, hpg⟩⟩
    · rw [hsc1, hpg]
      rfl
    · rcases h3 with h | h
      · rw [hf1] at h
        simp at h
      · rw [hf2] at h
        simp at h

/-- A backend that always hands out the cursor "s1", for the C8 witness. -/
def c8DemoBackend : Backend :=
  { search := fun _ => { hits := [], total := { value := 0 }, scroll_id := some "s1" },
    scroll := fun _ => { hits := [], total := { value := 0 }, scroll_id := some "s1" } }

/-- The paged result the C8 witness run produces. -/
def c8qr : QueryResult :=
  { data := [], total_count := some { value := 0 }, page := some 0,
    page_count := some 0, per_page := some 10, scroll_id := none }

/-- C8 witness: a concrete paged run, with both hypotheses discharged. -/
theorem c8_exactly_one_page_or_cursor_witness :
    (((as_dict c8qr).1.lookup "scroll_id").isSome = !((as_dict c8qr).1.lookup "page").isSome)
    ∧ (scrollTruthy none = false → scrollIdTruthy none = false →
        (as_dict c8qr).1.lookup "page" = some (optNatMeta c8qr.page)
          ∧ (as_dict c8qr).1.lookup "scroll_id" = none
          ∧ c8qr.page = some 0)
    ∧ ((scrollTruthy none = true ∨ scrollIdTruthy none = true) →
        ((as_dict c8qr).1.lookup "scroll_id").isSome = true
          ∧ (as_dict c8qr).1.lookup "page" = none) :=
  c8_exactly_one_page_or_cursor c8DemoBackend
    (fun _ => by show (some "s1" : Option String) ≠ some ""; decide)
    "i" none 0 10 none none none none false false c8qr rfl
